import Mathlib

/-!
Shallow embedding of the cache-aside aggregation layer of the recipe
discovery service: the Redis cache store (`app/services/cache.py`), the
MealDB external-catalog service with its read-through caching policy
(`app/services/mealdb.py`), and the combined-search merge of the recipes
router (`app/routers/recipes.py`).

Modelling conventions:
* Wall-clock timing (`response_time_ms` in `CacheInfo`, TTL expiry) is not
  modelled; TTL values are recorded with each stored entry so that the TTL
  a write used is observable, but reads never expire entries.
* Python exceptions that escape a function are modelled with
  `Except String`; the string names the Python exception class.
* I/O nondeterminism (whether a Redis connection attempt succeeds, whether
  a Redis command succeeds, what the MealDB HTTP call returns) is passed in
  explicitly as environment values.
-/

deriving instance DecidableEq for Except

namespace RecipeApi

/-- Python `str.lower()` (ASCII range, which covers every literal the
claims exercise). -/
def pyLower (s : String) : String := ⟨s.data.map Char.toLower⟩

/-- Whitespace removal from both ends of a character list. -/
def stripChars (l : List Char) : List Char :=
  ((l.dropWhile Char.isWhitespace).reverse.dropWhile Char.isWhitespace).reverse

/-- Python `str.strip()`: drop leading and trailing whitespace. -/
def pyStrip (s : String) : String := ⟨stripChars s.data⟩

/-- Split a character list on occurrences of the two-character sequence
CR LF, the helper behind `str.split("\r\n")`. -/
def splitCRLFAux : List Char → List Char → List (List Char)
  | [], acc => [acc.reverse]
  | '\r' :: '\n' :: rest, acc => acc.reverse :: splitCRLFAux rest []
  | c :: rest, acc => splitCRLFAux rest (c :: acc)

/-- Python `instructions.split("\r\n")`. -/
def pySplitCRLF (s : String) : List String :=
  (splitCRLFAux s.data []).map (fun l => ⟨l⟩)

/-- Internal `Recipe` model (`app/models/recipe.py`, class `Recipe`).
`id` is `Optional[int]`. -/
structure Recipe where
  id : Option Int
  title : String
  ingredients : List String
  steps : List String
  prepTime : String
  cookTime : String
  difficulty : String
  cuisine : String
  source : String
deriving DecidableEq, Repr

/-- Cache metadata (`app/models/recipe.py`, class `CacheInfo`), minus the
wall-clock `response_time_ms` field, which the embedding does not model. -/
structure CacheInfo where
  hit : Bool
  source : String
deriving DecidableEq, Repr

/-- Model of the serialized payload strings held by the cache, classified
by how Python's `json.loads` plus model construction behaves on them:
* `pnull` — the string `"null"` (`json.dumps(None)`);
* `pRecipe r` — the JSON object `json.dumps(recipe.model_dump())` of a
  well-formed recipe `r`;
* `pList rs` — the JSON array of well-formed recipe objects;
* `pBadJson raw` — a string `json.loads` rejects (`JSONDecodeError`);
  `raw` may be the empty string, the only falsy payload string;
* `pTruthyJunk raw` — valid JSON of a truthy value that is neither a
  mapping nor an iterable of mappings (e.g. a number), so both
  `Recipe(**value)` and per-element construction raise `TypeError`;
* `pBadShapeDict raw` — valid JSON, a non-empty object that fails model
  validation (`pydantic.ValidationError`, a `ValueError`);
* `pBadShapeList raw` — valid JSON, a non-empty array holding an object
  that fails model validation. -/
inductive Payload where
  | pnull
  | pRecipe (r : Recipe)
  | pList (rs : List Recipe)
  | pBadJson (raw : String)
  | pTruthyJunk (raw : String)
  | pBadShapeDict (raw : String)
  | pBadShapeList (raw : String)
deriving DecidableEq, Repr

/-- Python string truthiness of the payload (`if cached_result:`): every
serialized payload is a non-empty string except a corrupted empty one. -/
def Payload.isTruthy : Payload → Bool
  | .pBadJson raw => raw ≠ ""
  | _ => true

/-- State of one `RedisCache` handle plus the backing store
(`app/services/cache.py`). `connected` models whether `self._client` holds
a client (it starts as `None`); `store` models the Redis contents as an
association list from key to (payload, TTL-seconds used by the write),
newest binding first (a later `setex` shadows an earlier one). -/
structure CacheState where
  connected : Bool
  store : List (String × Payload × Nat)
deriving DecidableEq, Repr

/-- Lookup in the modelled Redis contents (newest binding wins). -/
def CacheState.lookup (s : CacheState) (key : String) : Option (Payload × Nat) :=
  (s.store.find? (fun e => e.1 == key)).map (fun e => e.2)

/-- Fresh handle (`RedisCache.__init__`): no client yet; we pair it with an
empty backing store. -/
def initState : CacheState := ⟨false, []⟩

/-- Environment for one cache operation: `connOk` is whether a connection
attempt (`redis.from_url` + `ping`) would succeed right now — consulted
only when no client is held — and `opOk` is whether the Redis command
itself succeeds once a client exists (a failing command raises
`ConnectionError`/`TimeoutError`, which `get`/`set` catch). -/
structure OpEnv where
  connOk : Bool
  opOk : Bool
deriving DecidableEq, Repr

/-- `RedisCache._get_client`: return the held client, else attempt to
connect; on failure leave `self._client = None` and return `None`. -/
def getClient (connOk : Bool) (s : CacheState) : Option Unit × CacheState :=
  if s.connected then (some (), s)
  else if connOk then (some (), { s with connected := true })
  else (none, s)

/-- `RedisCache.get`: absent when no client can be obtained or the command
fails (both are swallowed); otherwise the stored payload, if any. -/
def redisGet (e : OpEnv) (key : String) (s : CacheState) :
    Option Payload × CacheState :=
  match getClient e.connOk s with
  | (none, s') => (none, s')
  | (some _, s') =>
    if e.opOk then ((s'.lookup key).map (fun v => v.1), s') else (none, s')

/-- `RedisCache.set`: `False` when no client can be obtained or the command
fails; otherwise `setex` stores the payload under the key with the given
TTL and returns `True`. -/
def redisSet (e : OpEnv) (key : String) (val : Payload) (ttl : Nat)
    (s : CacheState) : Bool × CacheState :=
  match getClient e.connOk s with
  | (none, s') => (false, s')
  | (some _, s') =>
    if e.opOk then (true, { s' with store := (key, val, ttl) :: s'.store })
    else (false, s')

/-- One request against a cache handle, for stating lifetime properties of
the handle: either a `get key` or a `set key value ttl`. -/
inductive CacheOp where
  | opGet (key : String)
  | opSet (key : String) (val : Payload) (ttl : Nat)
deriving DecidableEq, Repr

/-- Observable outcome of one cache operation. -/
inductive OpResult where
  | gotten (v : Option Payload)
  | stored (b : Bool)
deriving DecidableEq, Repr

/-- Run one cache operation under its environment. -/
def runOp (p : CacheOp × OpEnv) (s : CacheState) : OpResult × CacheState :=
  match p with
  | (.opGet k, e) =>
    let (v, s') := redisGet e k s
    (.gotten v, s')
  | (.opSet k v ttl, e) =>
    let (b, s') := redisSet e k v ttl s
    (.stored b, s')

/-- Run a sequence of cache operations, threading the handle state. -/
def runOps : List (CacheOp × OpEnv) → CacheState → List OpResult × CacheState
  | [], s => ([], s)
  | p :: rest, s =>
    let (r, s') := runOp p s
    let (rs, s'') := runOps rest s'
    (r :: rs, s'')

/-- Wire shape of one MealDB `meals` entry, restricted to the fields
`_transform_meal_to_recipe` reads. Index `i : Fin 20` stands for the
numbered fields `strIngredient{i+1}` / `strMeasure{i+1}`; `none` models a
key that is absent or holds JSON `null` (Python `dict.get` yields `None`
for both, and `meal.get(key, default)` yields the default only when the
key is absent — for the claims settled here the two cases coincide). -/
structure MealWire where
  idMeal : Option Int
  strMeal : Option String
  strArea : Option String
  strInstructions : Option String
  strIngredient : Fin 20 → Option String
  strMeasure : Fin 20 → Option String

/-- One ingredient slot of `_transform_meal_to_recipe`
(`app/services/mealdb.py` lines 150–157): skipped unless the ingredient is
present and non-blank; the measure is prepended only when itself present
and non-blank; both are stripped. -/
def slotLine (ingredient measure : Option String) : Option String :=
  match ingredient with
  | none => none
  | some s =>
    if pyStrip s = "" then none
    else
      match measure with
      | none => some (pyStrip s)
      | some m =>
        if pyStrip m = "" then some (pyStrip s)
        else some (pyStrip m ++ " " ++ pyStrip s)

/-- The ingredient lines of a wire record, slots 1..20 in order. -/
def ingredientLines (meal : MealWire) : List String :=
  (List.finRange 20).filterMap (fun i => slotLine (meal.strIngredient i) (meal.strMeasure i))

/-- Step extraction of `_transform_meal_to_recipe` (lines 160–163): split
the block on CRLF, strip each line, keep the non-blank ones; if nothing
survives, fall back to the raw block, or to the placeholder when the block
is empty. -/
def instructionSteps (instructions : String) : List String :=
  if (((pySplitCRLF instructions).map pyStrip).filter (fun t => t ≠ "")).isEmpty then
    if instructions ≠ "" then [instructions] else ["No instructions available"]
  else ((pySplitCRLF instructions).map pyStrip).filter (fun t => t ≠ "")

/-- `MealDBService._transform_meal_to_recipe`. -/
def transformMealToRecipe (meal : MealWire) : Recipe :=
  { id := meal.idMeal
    title := meal.strMeal.getD "Unknown Recipe"
    ingredients := ingredientLines meal
    steps := instructionSteps (meal.strInstructions.getD "")
    prepTime := "Unknown"
    cookTime := "Unknown"
    difficulty := "Unknown"
    cuisine := meal.strArea.getD "Unknown"
    source := "mealdb" }

/-- `MealDBService.CACHE_TTL` (24 hours in seconds). -/
def CACHE_TTL : Nat := 86400

/-- Cache key of `get_meal_by_id`: `f"mealdb:meal:{meal_id}"`. -/
def byIdCacheKey (mealId : Int) : String := "mealdb:meal:" ++ toString mealId

/-- Cache key of `search_meals`: `f"mealdb:search:{query.lower().strip()}"`. -/
def searchCacheKey (query : String) : String :=
  "mealdb:search:" ++ pyStrip (pyLower query)

/-- Outcome of one MealDB HTTP call as the service observes it: `fault`
stands for the caught exception classes (`httpx.RequestError`,
`httpx.HTTPStatusError`, `KeyError`); `ok meals` for a 2xx JSON body whose
`meals` entry holds the given records (absent/`null` `meals` and the empty
list both map to `ok []`, since `not data.get("meals")` treats them
alike). -/
inductive ApiOutcome where
  | fault
  | ok (meals : List MealWire)

/-- Environment of one service call: the cache-operation environments for
its (at most one) `get` and (at most one) `set`, and the HTTP outcome the
network would deliver. -/
structure CallEnv where
  getEnv : OpEnv
  setEnv : OpEnv
  api : ApiOutcome

/-- How the cached branch of an operation ends. -/
inductive CachedStep (α : Type) where
  | ret (v : α)
  | fallThrough
  | uncaught (exc : String)

/-- Cached branch of `get_meal_by_id` (lines 33–45), per payload class:
`json.loads`, then `if cached_data: return Recipe(**cached_data), info
else: return None, info`, catching only `JSONDecodeError` and `TypeError`.
A falsy decoded value (JSON `null`, the empty array) is returned as a
cached negative; a truthy non-mapping raises `TypeError` (caught, fall
through); a non-empty object failing validation raises
`pydantic.ValidationError`, which the handler does not catch. -/
def byIdReadCache : Payload → CachedStep (Option Recipe)
  | .pnull => .ret none
  | .pRecipe r => .ret (some r)
  | .pList [] => .ret none
  | .pList (_ :: _) => .fallThrough
  | .pBadJson _ => .fallThrough
  | .pTruthyJunk _ => .fallThrough
  | .pBadShapeDict _ => .uncaught "pydantic.ValidationError"
  | .pBadShapeList _ => .fallThrough

/-- Cached branch of `search_meals` (lines 95–108): `json.loads`, then a
loop building `Recipe(**recipe_data)` per element, catching only
`JSONDecodeError` and `TypeError`. Iterating `None` or constructing from a
non-mapping raises `TypeError` (caught); a list element failing validation
raises `pydantic.ValidationError` (not caught). Iterating an object yields
its keys, and `Recipe(**key)` raises `TypeError` (caught). -/
def searchReadCache : Payload → CachedStep (List Recipe)
  | .pnull => .fallThrough
  | .pRecipe _ => .fallThrough
  | .pList rs => .ret rs
  | .pBadJson _ => .fallThrough
  | .pTruthyJunk _ => .fallThrough
  | .pBadShapeDict _ => .fallThrough
  | .pBadShapeList _ => .uncaught "pydantic.ValidationError"

/-- Miss path of `get_meal_by_id` (lines 48–78): call the API; on fault,
cache a negative under a 300-second TTL and return absent; on an empty
`meals`, cache a negative under the default TTL and return absent; else
transform the first entry, cache it under the default TTL, and return it.
All three return `hit = False, source = "api"`; a failing `set` is
ignored. -/
def byIdFetch (env : CallEnv) (key : String) (s : CacheState) :
    (Option Recipe × CacheInfo) × CacheState :=
  match env.api with
  | .fault =>
    ((none, ⟨false, "api"⟩), (redisSet env.setEnv key .pnull 300 s).2)
  | .ok [] =>
    ((none, ⟨false, "api"⟩), (redisSet env.setEnv key .pnull CACHE_TTL s).2)
  | .ok (m :: _) =>
    let recipe := transformMealToRecipe m
    ((some recipe, ⟨false, "api"⟩),
      (redisSet env.setEnv key (.pRecipe recipe) CACHE_TTL s).2)

/-- `MealDBService.get_meal_by_id`: read the cache; a truthy payload is
deserialized (returning on success, falling through on the caught error
classes, propagating anything else); a miss or fall-through fetches from
the API. -/
def get_meal_by_id (env : CallEnv) (mealId : Int) (s : CacheState) :
    Except String ((Option Recipe × CacheInfo) × CacheState) :=
  let key := byIdCacheKey mealId
  let res := redisGet env.getEnv key s
  match res.1 with
  | some p =>
    if p.isTruthy then
      match byIdReadCache p with
      | .ret v => .ok ((v, ⟨true, "cache"⟩), res.2)
      | .fallThrough => .ok (byIdFetch env key res.2)
      | .uncaught exc => .error exc
    else .ok (byIdFetch env key res.2)
  | none => .ok (byIdFetch env key res.2)

/-- Miss path of `search_meals` (lines 111–143): call the API; on fault,
return the empty list with `hit = False, source = "api"` WITHOUT caching
anything; on an empty `meals`, cache the empty list under the default TTL;
else transform every entry, cache the list under the default TTL, and
return it. A failing `set` is ignored. -/
def searchFetch (env : CallEnv) (key : String) (s : CacheState) :
    (List Recipe × CacheInfo) × CacheState :=
  match env.api with
  | .fault => (([], ⟨false, "api"⟩), s)
  | .ok [] =>
    (([], ⟨false, "api"⟩), (redisSet env.setEnv key (.pList []) CACHE_TTL s).2)
  | .ok meals@(_ :: _) =>
    let recipes := meals.map transformMealToRecipe
    ((recipes, ⟨false, "api"⟩),
      (redisSet env.setEnv key (.pList recipes) CACHE_TTL s).2)

/-- `MealDBService.search_meals`: an empty query short-circuits to an empty
result with `hit = False, source = "cache"` and no cache or network
activity; otherwise read the cache under the normalized key and proceed as
in the by-id lookup. -/
def search_meals (env : CallEnv) (query : String) (s : CacheState) :
    Except String ((List Recipe × CacheInfo) × CacheState) :=
  if query = "" then .ok (([], ⟨false, "cache"⟩), s)
  else
    let key := searchCacheKey query
    let res := redisGet env.getEnv key s
    match res.1 with
    | some p =>
      if p.isTruthy then
        match searchReadCache p with
        | .ret rs => .ok ((rs, ⟨true, "cache"⟩), res.2)
        | .fallThrough => .ok (searchFetch env key res.2)
        | .uncaught exc => .error exc
      else .ok (searchFetch env key res.2)
    | none => .ok (searchFetch env key res.2)

/-- Response model of one recipe (`app/models/recipe.py`, class
`RecipeResponse`): unlike `Recipe`, `id` is required. -/
structure RecipeResponse where
  id : Int
  title : String
  ingredients : List String
  steps : List String
  prepTime : String
  cookTime : String
  difficulty : String
  cuisine : String
  source : String
  cache_info : Option CacheInfo
deriving DecidableEq, Repr

/-- `RecipeResponse(**recipe.model_dump())`: pydantic validation fails when
the recipe has no id. -/
def recipeToResponse (r : Recipe) : Except String RecipeResponse :=
  match r.id with
  | none => .error "pydantic.ValidationError"
  | some i =>
    .ok { id := i, title := r.title, ingredients := r.ingredients,
          steps := r.steps, prepTime := r.prepTime, cookTime := r.cookTime,
          difficulty := r.difficulty, cuisine := r.cuisine,
          source := r.source, cache_info := none }

/-- Response of the combined search (`app/routers/recipes.py`, class
`SearchResultsResponse`). -/
structure SearchResultsResponse where
  recipes : List RecipeResponse
  mealdb_cache_info : Option CacheInfo
deriving DecidableEq, Repr

/-- Merge step of the `search_recipes` endpoint, parameterized by the two
leg results. `asyncio.gather(internal_task, mealdb_task)` delivers the
results positionally whatever the legs' completion order, so the merge
depends only on the two lists: the endpoint appends the responses for the
internal leg first, then those for the external leg. An empty/absent
query short-circuits to an empty response. -/
def search_recipes (q : String) (internal : List Recipe)
    (external : List Recipe) (info : CacheInfo) :
    Except String SearchResultsResponse :=
  if q = "" then .ok { recipes := [], mealdb_cache_info := none }
  else do
    let xs ← internal.mapM recipeToResponse
    let ys ← external.mapM recipeToResponse
    .ok { recipes := xs ++ ys, mealdb_cache_info := some info }

/-- Concrete wire record used by witnesses: one MealDB entry with no
ingredient slots filled. -/
def pastaWire : MealWire :=
  { idMeal := some 1, strMeal := some "Pasta", strArea := none,
    strInstructions := some "Boil", strIngredient := fun _ => none,
    strMeasure := fun _ => none }

/-- Call environment with a healthy cache and a catalog that has no match. -/
def envOkEmpty : CallEnv := ⟨⟨true, true⟩, ⟨true, true⟩, .ok []⟩

/-- Call environment with a healthy cache and a faulting catalog call. -/
def envFault : CallEnv := ⟨⟨true, true⟩, ⟨true, true⟩, .fault⟩

theorem getClient_connected (connOk : Bool) (s : CacheState)
    (h : s.connected = true) : getClient connOk s = (some (), s) := by
  simp [getClient, h]

theorem redisGet_live (e : OpEnv) (k : String) (s : CacheState)
    (h : s.connected = true) (ho : e.opOk = true) :
    redisGet e k s = ((s.lookup k).map (fun v => v.1), s) := by
  simp [redisGet, getClient_connected _ _ h, ho]

theorem redisGet_dead (e : OpEnv) (k : String) (s : CacheState)
    (h : s.connected = false) (hc : e.connOk = false) :
    redisGet e k s = (none, s) := by
  simp [redisGet, getClient, h, hc]

theorem redisSet_live (e : OpEnv) (k : String) (v : Payload) (ttl : Nat)
    (s : CacheState) (h : s.connected = true) (ho : e.opOk = true) :
    redisSet e k v ttl s = (true, { s with store := (k, v, ttl) :: s.store }) := by
  simp [redisSet, getClient_connected _ _ h, ho]

theorem redisSet_dead (e : OpEnv) (k : String) (v : Payload) (ttl : Nat)
    (s : CacheState) (h : s.connected = false) (hc : e.connOk = false) :
    redisSet e k v ttl s = (false, s) := by
  simp [redisSet, getClient, h, hc]

theorem lookup_cons_self (s : CacheState) (k : String) (v : Payload) (ttl : Nat) :
    CacheState.lookup { s with store := (k, v, ttl) :: s.store } k = some (v, ttl) := by
  simp [CacheState.lookup, List.find?]

/-- C4. The claim reads: after a cache-store handle's first connection
attempt fails, the store degrades to a no-op for the lifetime of that
handle — every subsequent get returns absent and every subsequent set
returns failure, with no reconnection attempt. This is false of
`RedisCache._get_client`: a failed attempt leaves `self._client = None`,
so the next operation attempts to connect again; here the first operation
fails to connect (its get returns absent), yet the very next set
reconnects and succeeds. -/
theorem C4_counterexample :
    runOps [(CacheOp.opGet "k", ⟨false, true⟩),
            (CacheOp.opSet "k" .pnull 60, ⟨true, true⟩)] initState =
      ([OpResult.gotten none, OpResult.stored true],
        ⟨true, [("k", Payload.pnull, 60)]⟩) := by
  decide

/-- C4 (amended). A failed connection attempt degrades the store only
per-operation: while the handle holds no client and every connection
attempt keeps failing, every get returns absent, every set returns
failure, and the handle state is unchanged; but each operation re-attempts
the connection, so degradation does not persist for the handle's lifetime
once an attempt succeeds. -/
theorem C4_amended (trace : List (CacheOp × OpEnv)) (s : CacheState)
    (h : s.connected = false) (hc : ∀ p ∈ trace, p.2.connOk = false) :
    runOps trace s =
      (trace.map (fun p =>
        match p.1 with
        | .opGet _ => OpResult.gotten none
        | .opSet _ _ _ => OpResult.stored false), s) := by
  induction trace with
  | nil => simp [runOps]
  | cons p rest ih =>
    have hp : p.2.connOk = false := hc p (List.mem_cons_self p rest)
    have hrest : ∀ q ∈ rest, q.2.connOk = false :=
      fun q hq => hc q (List.mem_cons_of_mem p hq)
    rcases p with ⟨op, e⟩
    cases op with
    | opGet k =>
      simp [runOps, runOp, redisGet_dead e k s h hp, ih hrest]
    | opSet k v ttl =>
      simp [runOps, runOp, redisSet_dead e k v ttl s h hp, ih hrest]

/-- Closed instance of `C4_amended`: a two-operation trace of connection
failures against a fresh handle yields an absent get and a failing set. -/
theorem C4_amended_witness :
    runOps [(CacheOp.opGet "k", ⟨false, true⟩),
            (CacheOp.opSet "k" .pnull 60, ⟨false, true⟩)] initState =
      ([OpResult.gotten none, OpResult.stored false], initState) :=
  C4_amended _ initState rfl (by decide)

/-- C1. The claim reads: every read-through operation (by-id lookup AND
search) whose cache lookup misses and whose external call faults caches a
negative result under the 5-minute TTL. This is false for the search:
`search_meals` with a healthy cache, a miss, and a faulting catalog call
returns the negative result with `hit = false, source = "api"` but leaves
the store without any entry under the search key — nothing is cached. -/
theorem C1_counterexample :
    search_meals envFault "pasta" ⟨true, []⟩ =
      .ok (([], ⟨false, "api"⟩), (⟨true, []⟩ : CacheState)) ∧
    (⟨true, []⟩ : CacheState).lookup (searchCacheKey "pasta") = none := by
  decide

/-- C1 (amended). On a cache miss whose external call faults, neither
operation propagates the fault and both return the negative result with
`hit = false, source = "api"`; the by-id lookup caches its negative result
under a 300-second TTL, strictly less than the 24-hour default, while the
search caches nothing at all. -/
theorem C1_amended (env : CallEnv) (mealId : Int) (q : String) (s : CacheState)
    (hs : s.connected = true) (hg : env.getEnv.opOk = true)
    (hset : env.setEnv.opOk = true) (hapi : env.api = .fault) :
    (s.lookup (byIdCacheKey mealId) = none →
      get_meal_by_id env mealId s =
        .ok ((none, ⟨false, "api"⟩),
          { s with store := (byIdCacheKey mealId, .pnull, 300) :: s.store }) ∧
      300 < CACHE_TTL) ∧
    (q ≠ "" → s.lookup (searchCacheKey q) = none →
      search_meals env q s = .ok (([], ⟨false, "api"⟩), s)) := by
  constructor
  · intro hmiss
    refine ⟨?_, by norm_num [CACHE_TTL]⟩
    simp [get_meal_by_id, redisGet_live _ _ _ hs hg, hmiss, byIdFetch, hapi,
      redisSet_live _ _ _ _ _ hs hset]
  · intro hq hmiss
    simp [search_meals, hq, redisGet_live _ _ _ hs hg, hmiss, searchFetch, hapi]

/-- Closed instance of `C1_amended` at meal id 7 and query "pasta" against
a connected handle with an empty store. -/
theorem C1_amended_witness :
    get_meal_by_id envFault 7 ⟨true, []⟩ =
      .ok ((none, ⟨false, "api"⟩),
        ⟨true, [(byIdCacheKey 7, .pnull, 300)]⟩) ∧
    300 < CACHE_TTL ∧
    search_meals envFault "pasta" ⟨true, []⟩ =
      .ok (([], ⟨false, "api"⟩), (⟨true, []⟩ : CacheState)) := by
  have h := C1_amended envFault 7 "pasta" ⟨true, []⟩ rfl rfl rfl rfl
  exact ⟨(h.1 (by decide)).1, (h.1 (by decide)).2, h.2 (by decide) (by decide)⟩

/-- C8. Two consecutive by-id lookups for an identifier the catalog does
not have both return absent; the first caches the negative result (`null`)
under the default 24-hour TTL, and the second is served from the cache
with `hit = true`. -/
theorem C8_negative_caching_idempotent (mealId : Int) (s : CacheState)
    (env1 env2 : CallEnv) (hs : s.connected = true)
    (hmiss : s.lookup (byIdCacheKey mealId) = none)
    (h1g : env1.getEnv.opOk = true) (h1s : env1.setEnv.opOk = true)
    (h1api : env1.api = .ok []) (h2g : env2.getEnv.opOk = true) :
    get_meal_by_id env1 mealId s =
      .ok ((none, ⟨false, "api"⟩),
        { s with store := (byIdCacheKey mealId, .pnull, CACHE_TTL) :: s.store }) ∧
    CacheState.lookup
        { s with store := (byIdCacheKey mealId, .pnull, CACHE_TTL) :: s.store }
        (byIdCacheKey mealId) = some (.pnull, CACHE_TTL) ∧
    get_meal_by_id env2 mealId
        { s with store := (byIdCacheKey mealId, .pnull, CACHE_TTL) :: s.store } =
      .ok ((none, ⟨true, "cache"⟩),
        { s with store := (byIdCacheKey mealId, .pnull, CACHE_TTL) :: s.store }) := by
  refine ⟨?_, lookup_cons_self s _ _ _, ?_⟩
  · simp [get_meal_by_id, redisGet_live _ _ _ hs h1g, hmiss, byIdFetch, h1api,
      redisSet_live _ _ _ _ _ hs h1s]
  · have hs1 : (CacheState.mk s.connected
        ((byIdCacheKey mealId, Payload.pnull, CACHE_TTL) :: s.store)).connected = true := hs
    simp [get_meal_by_id, redisGet_live _ _ _ hs1 h2g, lookup_cons_self,
      Payload.isTruthy, byIdReadCache]

/-- Closed instance of `C8_negative_caching_idempotent` at meal id 7. -/
theorem C8_witness :
    get_meal_by_id envOkEmpty 7 ⟨true, []⟩ =
      .ok ((none, ⟨false, "api"⟩),
        ⟨true, [(byIdCacheKey 7, .pnull, CACHE_TTL)]⟩) ∧
    CacheState.lookup ⟨true, [(byIdCacheKey 7, .pnull, CACHE_TTL)]⟩
        (byIdCacheKey 7) = some (.pnull, CACHE_TTL) ∧
    get_meal_by_id envFault 7 ⟨true, [(byIdCacheKey 7, .pnull, CACHE_TTL)]⟩ =
      .ok ((none, ⟨true, "cache"⟩),
        ⟨true, [(byIdCacheKey 7, .pnull, CACHE_TTL)]⟩) :=
  C8_negative_caching_idempotent 7 ⟨true, []⟩ envOkEmpty envFault rfl
    (by decide) rfl rfl rfl rfl

/-- C9. With the cache store unavailable — the handle holds no client and
every connection attempt fails, so every get returns absent and every set
returns failure — a search with a non-empty query still returns the
external catalog's results (transformed, in catalog order) with
`hit = false, source = "api"`, raises nothing, and leaves the handle
unchanged. -/
theorem C9_search_cache_outage (env : CallEnv) (q : String)
    (meals : List MealWire) (s : CacheState) (hq : q ≠ "")
    (hs : s.connected = false) (hg : env.getEnv.connOk = false)
    (hst : env.setEnv.connOk = false) (hapi : env.api = .ok meals) :
    search_meals env q s =
      .ok ((meals.map transformMealToRecipe, ⟨false, "api"⟩), s) := by
  cases meals with
  | nil =>
    simp [search_meals, hq, redisGet_dead _ _ _ hs hg, searchFetch, hapi,
      redisSet_dead _ _ _ _ _ hs hst]
  | cons m ms =>
    simp [search_meals, hq, redisGet_dead _ _ _ hs hg, searchFetch, hapi,
      redisSet_dead _ _ _ _ _ hs hst]

/-- Closed instance of `C9_search_cache_outage`: searching "pasta" with a
dead cache store still returns the transformed catalog record. -/
theorem C9_witness :
    search_meals ⟨⟨false, true⟩, ⟨false, true⟩, .ok [pastaWire]⟩ "pasta" initState =
      .ok (([transformMealToRecipe pastaWire], ⟨false, "api"⟩), initState) :=
  C9_search_cache_outage ⟨⟨false, true⟩, ⟨false, true⟩, .ok [pastaWire]⟩
    "pasta" [pastaWire] initState (by decide) rfl rfl rfl rfl

/-- C10. Every by-id lookup that returns (rather than raises) reports a
`CacheInfo` whose source is either "cache" or "api", with `hit` true
exactly when the source is "cache" — for every environment, identifier and
handle state. -/
theorem C10_cacheinfo_invariant (env : CallEnv) (mealId : Int)
    (s : CacheState) (out : Option Recipe × CacheInfo) (s' : CacheState)
    (h : get_meal_by_id env mealId s = .ok (out, s')) :
    (out.2.source = "cache" ∨ out.2.source = "api") ∧
    (out.2.hit = true ↔ out.2.source = "cache") := by
  rcases hapi : env.api with _ | (_ | ⟨m, ms⟩) <;>
    (simp only [get_meal_by_id, byIdFetch, hapi] at h
     split at h <;> (try split at h) <;> (try split at h) <;>
       first
         | (simp only [Except.ok.injEq, Prod.mk.injEq] at h
            obtain ⟨h1, h2⟩ := h
            subst h1
            simp)
         | simp at h)

/-- Closed instance of `C10_cacheinfo_invariant` at a concrete faulting
call. -/
theorem C10_witness :
    (((none, ⟨false, "api"⟩) : Option Recipe × CacheInfo).2.source = "cache" ∨
      ((none, ⟨false, "api"⟩) : Option Recipe × CacheInfo).2.source = "api") ∧
    (((none, ⟨false, "api"⟩) : Option Recipe × CacheInfo).2.hit = true ↔
      ((none, ⟨false, "api"⟩) : Option Recipe × CacheInfo).2.source = "cache") :=
  C10_cacheinfo_invariant envFault 7 ⟨true, []⟩ (none, ⟨false, "api"⟩)
    ⟨true, [(byIdCacheKey 7, .pnull, 300)]⟩ (by decide)

/-- C2. For every combined search with a non-empty query, the merged
result is exactly the responses for the internal repository matches (in
repository order) followed by the responses for the external catalog
matches (in catalog order). `asyncio.gather` delivers each leg's result at
its argument position whatever the legs' completion order, so the merge is
a function of the two lists alone — which this theorem quantifies over. -/
theorem C2_merge_order (q : String) (internal external : List Recipe)
    (info : CacheInfo) (xs ys : List RecipeResponse) (hq : q ≠ "")
    (hi : internal.mapM recipeToResponse = .ok xs)
    (he : external.mapM recipeToResponse = .ok ys) :
    search_recipes q internal external info =
      .ok { recipes := xs ++ ys, mealdb_cache_info := some info } := by
  unfold search_recipes
  rw [if_neg hq, hi, he]
  rfl

/-- Internal fixture recipe used by witnesses. -/
def recA : Recipe :=
  { id := some 1, title := "A", ingredients := [], steps := [],
    prepTime := "", cookTime := "", difficulty := "", cuisine := "",
    source := "internal" }

/-- Internal fixture recipe used by witnesses. -/
def recB : Recipe := { recA with id := some 2, title := "B" }

/-- External fixture recipe used by witnesses. -/
def recX : Recipe := { recA with id := some 3, title := "X", source := "mealdb" }

/-- External fixture recipe used by witnesses. -/
def recY : Recipe := { recA with id := some 4, title := "Y", source := "mealdb" }

/-- Response shape of a fixture recipe. -/
def respOf (i : Int) (t : String) (src : String) : RecipeResponse :=
  { id := i, title := t, ingredients := [], steps := [], prepTime := "",
    cookTime := "", difficulty := "", cuisine := "", source := src,
    cache_info := none }

/-- Closed instance of `C2_merge_order`: internal matches `[A, B]` and
external matches `[X, Y]` merge to exactly `[A, B, X, Y]`. -/
theorem C2_witness :
    search_recipes "chocolate" [recA, recB] [recX, recY] ⟨false, "api"⟩ =
      .ok { recipes := [respOf 1 "A" "internal", respOf 2 "B" "internal",
                        respOf 3 "X" "mealdb", respOf 4 "Y" "mealdb"],
            mealdb_cache_info := some ⟨false, "api"⟩ } :=
  C2_merge_order "chocolate" [recA, recB] [recX, recY] ⟨false, "api"⟩
    [respOf 1 "A" "internal", respOf 2 "B" "internal"]
    [respOf 3 "X" "mealdb", respOf 4 "Y" "mealdb"]
    (by decide) (by decide) (by decide)

/-- C3. The claim says no deserialization fault is ever propagated to the
caller, for any cached payload. The code only catches `JSONDecodeError`
and `TypeError`; a cached payload that is valid JSON of the right Python
type but fails model validation — an object such as `"\x7b\"title\":
\"x\"\x7d"` for the by-id lookup, or an array containing such an object
for the search — raises `pydantic.ValidationError` (a `ValueError`), which
escapes to the caller instead of falling through to the API. This
contradicts the code's own comment ("Continue to fetch from API if cache
is corrupted"), so it is a bug in the code rather than in the claim. -/
theorem C3_validation_error_propagates :
    get_meal_by_id envOkEmpty 7
        ⟨true, [(byIdCacheKey 7,
          .pBadShapeDict "\x7b\"title\": \"x\"\x7d", 86400)]⟩ =
      .error "pydantic.ValidationError" ∧
    search_meals envOkEmpty "pasta"
        ⟨true, [(searchCacheKey "pasta",
          .pBadShapeList "[\x7b\"title\": \"x\"\x7d]", 86400)]⟩ =
      .error "pydantic.ValidationError" := by
  decide

/-- Call environment with a healthy cache and a catalog returning the one
fixture record. -/
def envOkPasta : CallEnv := ⟨⟨true, true⟩, ⟨true, true⟩, .ok [pastaWire]⟩

/-- C5. The claim quantifies over ALL queries that normalize to the same
trimmed, lower-cased string and promises the second search is a cache
hit. It fails for the pair `" "` and `""`: both normalize to the empty
string, and a first search with `" "` does populate the cache under the
shared key, but a search with `""` short-circuits before touching the
cache and reports `hit = false`. -/
theorem C5_counterexample :
    pyStrip (pyLower " ") = pyStrip (pyLower "") ∧
    search_meals envOkPasta " " ⟨true, []⟩ =
      .ok (([transformMealToRecipe pastaWire], ⟨false, "api"⟩),
        ⟨true, [(searchCacheKey " ",
          .pList [transformMealToRecipe pastaWire], CACHE_TTL)]⟩) ∧
    search_meals envOkPasta ""
        ⟨true, [(searchCacheKey " ",
          .pList [transformMealToRecipe pastaWire], CACHE_TTL)]⟩ =
      .ok (([], ⟨false, "cache"⟩),
        ⟨true, [(searchCacheKey " ",
          .pList [transformMealToRecipe pastaWire], CACHE_TTL)]⟩) := by
  decide

/-- C5 (amended). For all NON-EMPTY queries `q1`, `q2` whose
lower-then-strip normalizations agree, the search computes the same cache
key, and after a first search with `q1` populates the cache, a search with
`q2` is served from the cache with `hit = true` and the same result list.
The empty query is excluded: it bypasses the cache entirely. -/
theorem C5_amended (q1 q2 : String) (meals : List MealWire)
    (env1 env2 : CallEnv) (s : CacheState)
    (h1 : q1 ≠ "") (h2 : q2 ≠ "")
    (hnorm : pyStrip (pyLower q1) = pyStrip (pyLower q2))
    (hs : s.connected = true)
    (hg1 : env1.getEnv.opOk = true) (hs1 : env1.setEnv.opOk = true)
    (hapi1 : env1.api = .ok meals) (hg2 : env2.getEnv.opOk = true) :
    s.lookup (searchCacheKey q1) = none →
    searchCacheKey q1 = searchCacheKey q2 ∧
    search_meals env1 q1 s =
      .ok ((meals.map transformMealToRecipe, ⟨false, "api"⟩),
        { s with store := (searchCacheKey q1,
            .pList (meals.map transformMealToRecipe), CACHE_TTL) :: s.store }) ∧
    search_meals env2 q2
        { s with store := (searchCacheKey q1,
            .pList (meals.map transformMealToRecipe), CACHE_TTL) :: s.store } =
      .ok ((meals.map transformMealToRecipe, ⟨true, "cache"⟩),
        { s with store := (searchCacheKey q1,
            .pList (meals.map transformMealToRecipe), CACHE_TTL) :: s.store }) := by
  intro hmiss
  have hkey : searchCacheKey q1 = searchCacheKey q2 := by
    unfold searchCacheKey
    rw [hnorm]
  have hs1c : (CacheState.mk s.connected
      ((searchCacheKey q1, Payload.pList (meals.map transformMealToRecipe),
        CACHE_TTL) :: s.store)).connected = true := hs
  refine ⟨hkey, ?_, ?_⟩
  · cases meals with
    | nil =>
      simp [search_meals, h1, redisGet_live _ _ _ hs hg1, hmiss, searchFetch,
        hapi1, redisSet_live _ _ _ _ _ hs hs1]
    | cons m ms =>
      simp [search_meals, h1, redisGet_live _ _ _ hs hg1, hmiss, searchFetch,
        hapi1, redisSet_live _ _ _ _ _ hs hs1]
  · simp [search_meals, h2, redisGet_live _ _ _ hs1c hg2, ← hkey,
      lookup_cons_self, Payload.isTruthy, searchReadCache]

/-- Closed instance of `C5_amended`: `"Pasta "` and `"pasta"` normalize
identically; the first search misses and populates, the second hits. -/
theorem C5_amended_witness :
    searchCacheKey "Pasta " = searchCacheKey "pasta" ∧
    search_meals envOkPasta "Pasta " ⟨true, []⟩ =
      .ok (([transformMealToRecipe pastaWire], ⟨false, "api"⟩),
        ⟨true, [(searchCacheKey "Pasta ",
          .pList [transformMealToRecipe pastaWire], CACHE_TTL)]⟩) ∧
    search_meals envOkPasta "pasta"
        ⟨true, [(searchCacheKey "Pasta ",
          .pList [transformMealToRecipe pastaWire], CACHE_TTL)]⟩ =
      .ok (([transformMealToRecipe pastaWire], ⟨true, "cache"⟩),
        ⟨true, [(searchCacheKey "Pasta ",
          .pList [transformMealToRecipe pastaWire], CACHE_TTL)]⟩) :=
  C5_amended "Pasta " "pasta" [pastaWire] envOkPasta envOkPasta ⟨true, []⟩
    (by decide) (by decide) (by decide) rfl rfl rfl rfl rfl (by decide)

/-- Wire fixture whose first slot has a non-blank measure and an
ingredient carrying trailing whitespace. -/
def sugarWire : MealWire :=
  { idMeal := some 2, strMeal := some "Cake", strArea := none,
    strInstructions := none,
    strIngredient := fun i => if i = 0 then some "sugar " else none,
    strMeasure := fun i => if i = 0 then some "1 cup" else none }

/-- C6. The claim says a slot with both fields present and non-blank
produces the line `"<measure> <ingredient>"`. The code strips both fields
first: with measure `"1 cup"` and ingredient `"sugar "` the produced line
is `"1 cup sugar"`, not the claimed `"1 cup" ++ " " ++ "sugar "`. -/
theorem C6_counterexample :
    ingredientLines sugarWire = ["1 cup sugar"] ∧
    ("1 cup sugar" : String) ≠ "1 cup" ++ " " ++ "sugar " := by
  decide

/-- C6 (amended). For every wire record and slot: when both the ingredient
and the measure are present and non-blank the slot's line is the stripped
measure, a space, and the stripped ingredient; when the ingredient is
present and non-blank but the measure is absent or blank the line is the
stripped ingredient alone; when the ingredient is absent or blank the slot
contributes nothing (whatever the measure); and the transformation's
ingredient list is exactly the per-slot lines of slots 1..20 in order. -/
theorem C6_amended (meal : MealWire) (i : Fin 20) :
    (∀ s m, meal.strIngredient i = some s → pyStrip s ≠ "" →
      meal.strMeasure i = some m → pyStrip m ≠ "" →
      slotLine (meal.strIngredient i) (meal.strMeasure i) =
        some (pyStrip m ++ " " ++ pyStrip s)) ∧
    (∀ s, meal.strIngredient i = some s → pyStrip s ≠ "" →
      (meal.strMeasure i = none ∨
        ∃ m, meal.strMeasure i = some m ∧ pyStrip m = "") →
      slotLine (meal.strIngredient i) (meal.strMeasure i) =
        some (pyStrip s)) ∧
    ((meal.strIngredient i = none ∨
        ∃ s, meal.strIngredient i = some s ∧ pyStrip s = "") →
      slotLine (meal.strIngredient i) (meal.strMeasure i) = none) ∧
    ingredientLines meal =
      (List.finRange 20).filterMap
        (fun j => slotLine (meal.strIngredient j) (meal.strMeasure j)) := by
  refine ⟨?_, ?_, ?_, rfl⟩
  · intro s m hs hsne hm hmne
    rw [hs, hm]
    simp [slotLine, hsne, hmne]
  · intro s hs hsne hm
    rcases hm with hm | ⟨m, hm, hme⟩
    · rw [hs, hm]
      simp [slotLine, hsne]
    · rw [hs, hm]
      simp [slotLine, hsne, hme]
  · intro hing
    rcases hing with hing | ⟨s, hs, hse⟩
    · rw [hing]
      simp [slotLine]
    · rw [hs]
      simp [slotLine, hse]

/-- Closed instance of `C6_amended` at the fixture wire's first slot. -/
theorem C6_amended_witness :
    slotLine (sugarWire.strIngredient 0) (sugarWire.strMeasure 0) =
      some (pyStrip "1 cup" ++ " " ++ pyStrip "sugar ") :=
  (C6_amended sugarWire 0).1 "sugar " "1 cup" rfl (by decide) rfl (by decide)

/-- C7. The claim says an instructions block with no CRLF separators
yields exactly one step equal to the whole text. The code strips the
surviving line: for the block `"cook "` the single step is `"cook"`, not
the whole text `"cook "`. -/
theorem C7_counterexample :
    pySplitCRLF "cook " = ["cook "] ∧
    instructionSteps "cook " = ["cook"] ∧
    (["cook"] : List String) ≠ ["cook "] := by
  decide

/-- C7 (amended). If splitting on CRLF and discarding blank lines yields
zero steps, the step list is the raw instructions text, or the placeholder
when the text is empty; and a block with no CRLF separator yields exactly
one step — the whole text stripped of surrounding whitespace when that is
non-blank, otherwise the raw text (or the placeholder when empty). -/
theorem C7_amended (instr : String) :
    (((pySplitCRLF instr).map pyStrip).filter (fun t => t ≠ "") = [] →
      instructionSteps instr =
        if instr = "" then ["No instructions available"] else [instr]) ∧
    (pySplitCRLF instr = [instr] →
      instructionSteps instr =
        if pyStrip instr = "" then
          (if instr = "" then ["No instructions available"] else [instr])
        else [pyStrip instr]) := by
  constructor
  · intro h
    unfold instructionSteps
    rw [h]
    by_cases hi : instr = "" <;> simp [hi]
  · intro h
    unfold instructionSteps
    rw [h]
    by_cases hps : pyStrip instr = ""
    · by_cases hi : instr = ""
      · subst hi
        decide
      · simp [hps, hi]
    · simp [hps]

/-- Closed instance of `C7_amended` at the CRLF-free block "Boil". -/
theorem C7_amended_witness :
    instructionSteps "Boil" =
      if pyStrip "Boil" = "" then
        (if "Boil" = "" then ["No instructions available"] else ["Boil"])
      else [pyStrip "Boil"] :=
  (C7_amended "Boil").2 (by decide)

end RecipeApi
